import Mathlib

/-!
Shallow embedding of the TourMoreAI travel planner repository.

* The `FlightToolkit` namespace models `flight_toolkit.py`: the tool method
  `FlightToolkit.search_flights` together with its helpers
  `_validate_inputs`, `_parse_error_response` and `_process_flight_results`.
* The `TourMoreAI` namespace models `TourMoreAI.py`: the step methods of
  `TravelPlannerWorkflow` and its `run` generator.

Remote services (the Amadeus flight aggregator and the language-model
agents) are opaque collaborators; each one is a parameter of the embedding,
so theorems quantify over every possible remote behaviour.  The current
wall-clock date (`datetime.now()`) is likewise passed in as a `today`
parameter.
-/

namespace FlightToolkit

/-- A calendar date: the year/month/day triple observed by
`datetime.strptime(date, '%Y-%m-%d')` and `strftime('%Y-%m-%d')`. -/
structure Date where
  year : Nat
  month : Nat
  day : Nat
deriving DecidableEq

/-- Gregorian leap-year rule, as used by Python `datetime` to accept or
reject a day-of-month. -/
def isLeap (y : Nat) : Bool :=
  (y % 4 == 0 && y % 100 != 0) || (y % 400 == 0)

/-- Number of days in a month, as validated by the `datetime` constructor. -/
def daysInMonth (y m : Nat) : Nat :=
  if m = 2 then (if isLeap y then 29 else 28)
  else if m = 4 ∨ m = 6 ∨ m = 9 ∨ m = 11 then 30
  else 31

/-- Lexicographic comparison of dates: the `<` of Python `datetime`
restricted to the year/month/day fields produced by `%Y-%m-%d` parsing. -/
def Date.lt (a b : Date) : Bool :=
  decide (a.year < b.year ∨
    (a.year = b.year ∧ (a.month < b.month ∨
      (a.month = b.month ∧ a.day < b.day))))

/-- The next calendar day: `datetime.now() + timedelta(days=1)` on the
date component. -/
def Date.succ (d : Date) : Date :=
  if d.day < daysInMonth d.year d.month then
    { year := d.year, month := d.month, day := d.day + 1 }
  else if d.month < 12 then
    { year := d.year, month := d.month + 1, day := 1 }
  else
    { year := d.year + 1, month := 1, day := 1 }

/-- Split a character list at every dash, mirroring how the `%Y-%m-%d`
pattern carves the input into a year, a month and a day field (Python
`str.split('-')` semantics: empty fields are kept). -/
def splitDashes : List Char → List (List Char)
  | [] => [[]]
  | '-' :: rest => [] :: splitDashes rest
  | c :: rest =>
    match splitDashes rest with
    | [] => [[c]]
    | field :: fields => (c :: field) :: fields

/-- Decimal value of a digit string (only meaningful once every character
has been checked with `Char.isDigit`). -/
def digitsToNat (cs : List Char) : Nat :=
  cs.foldl (fun n c => 10 * n + (c.toNat - 48)) 0

/-- `datetime.strptime(s, '%Y-%m-%d')`, reduced to the date it yields:
exactly four year digits, one or two month digits, one or two day digits,
dash separators, no trailing text, and the resulting numbers must form a
real calendar date (month 1–12, day within the month, year at least 1). -/
def parseDate (s : String) : Option Date :=
  match splitDashes s.toList with
  | [ys, ms, ds] =>
    if ys.length = 4 ∧ ys.all Char.isDigit ∧
        1 ≤ ms.length ∧ ms.length ≤ 2 ∧ ms.all Char.isDigit ∧
        1 ≤ ds.length ∧ ds.length ≤ 2 ∧ ds.all Char.isDigit then
      let y := digitsToNat ys
      let m := digitsToNat ms
      let d := digitsToNat ds
      if 1 ≤ y ∧ 1 ≤ m ∧ m ≤ 12 ∧ 1 ≤ d ∧ d ≤ daysInMonth y m then
        some { year := y, month := m, day := d }
      else none
    else none
  | _ => none

/-- Zero-pad a number to two decimal digits (`%m` / `%d` formatting). -/
def pad2 (n : Nat) : String :=
  if n < 10 then "0" ++ toString n else toString n

/-- Zero-pad a number to four decimal digits (`%Y` formatting). -/
def pad4 (n : Nat) : String :=
  if n < 10 then "000" ++ toString n
  else if n < 100 then "00" ++ toString n
  else if n < 1000 then "0" ++ toString n
  else toString n

/-- `strftime('%Y-%m-%d')`. -/
def fmtDate (d : Date) : String :=
  pad4 d.year ++ "-" ++ pad2 d.month ++ "-" ++ pad2 d.day

/-! ### Raw aggregator data

The nested dictionaries of the Amadeus flight-offers response, restricted
to the keys `_process_flight_results` reads.  Keys the code accesses with
`[...]` are mandatory fields; keys accessed with `.get(..., default)` are
`Option` fields. -/

/-- `segment['departure']` / `segment['arrival']`: IATA code and timestamp
are accessed with `[...]`, the terminal with `.get('terminal', 'N/A')`. -/
structure EndpointRaw where
  iataCode : String
  terminal : Option String
  at_ : String
deriving DecidableEq

/-- `segment.get('aircraft', {})`: a dictionary whose `code` key may be
missing. -/
structure AircraftRaw where
  code : Option String
deriving DecidableEq

/-- One entry of `itinerary['segments']`. -/
structure SegmentRaw where
  departure : EndpointRaw
  arrival : EndpointRaw
  carrierCode : String
  number : String
  aircraft : Option AircraftRaw
  duration : Option String
deriving DecidableEq

/-- One entry of `offer['itineraries']`; its `duration` is read with
`.get('duration', 'N/A')`. -/
structure ItineraryRaw where
  duration : Option String
  segments : List SegmentRaw
deriving DecidableEq

/-- `offer['price']`. -/
structure PriceRaw where
  total : String
  currency : String
deriving DecidableEq

/-- One element of `response.data`: a raw flight offer. -/
structure OfferRaw where
  id : String
  price : PriceRaw
  itineraries : List ItineraryRaw
deriving DecidableEq

/-! ### Reshaped output of `_process_flight_results` -/

/-- Reshaped departure/arrival block. -/
structure EndpointOut where
  iataCode : String
  terminal : String
  at_ : String
deriving DecidableEq

/-- Reshaped segment. -/
structure SegmentOut where
  departure : EndpointOut
  arrival : EndpointOut
  carrierCode : String
  flightNumber : String
  aircraft : String
  duration : String
deriving DecidableEq

/-- Reshaped itinerary. -/
structure ItineraryOut where
  duration : String
  segments : List SegmentOut
deriving DecidableEq

/-- Reshaped price block. -/
structure PriceOut where
  total : String
  currency : String
deriving DecidableEq

/-- Reshaped flight entry. -/
structure FlightOut where
  id : String
  price : PriceOut
  itineraries : List ItineraryOut
deriving DecidableEq

/-- The dictionary returned by `_process_flight_results`. -/
structure ProcessedResults where
  count : Nat
  flights : List FlightOut
deriving DecidableEq

/-- The per-segment reshaping performed inside `_process_flight_results`:
mandatory keys are copied, `terminal`, `aircraft` code and `duration` fall
back to the literal string `"N/A"` when missing. -/
def processSegment (segment : SegmentRaw) : SegmentOut :=
  { departure :=
      { iataCode := segment.departure.iataCode
        terminal := segment.departure.terminal.getD "N/A"
        at_ := segment.departure.at_ }
    arrival :=
      { iataCode := segment.arrival.iataCode
        terminal := segment.arrival.terminal.getD "N/A"
        at_ := segment.arrival.at_ }
    carrierCode := segment.carrierCode
    flightNumber := segment.number
    aircraft := ((segment.aircraft.getD { code := none }).code).getD "N/A"
    duration := segment.duration.getD "N/A" }

/-- The per-itinerary reshaping inside `_process_flight_results`. -/
def processItinerary (itinerary : ItineraryRaw) : ItineraryOut :=
  { duration := itinerary.duration.getD "N/A"
    segments := itinerary.segments.map processSegment }

/-- The per-offer reshaping inside `_process_flight_results`. -/
def processOffer (offer : OfferRaw) : FlightOut :=
  { id := offer.id
    price := { total := offer.price.total, currency := offer.price.currency }
    itineraries := offer.itineraries.map processItinerary }

/-- `FlightToolkit._process_flight_results`: empty (falsy) data yields
`{"count": 0, "flights": []}`, otherwise the count is the length of the
raw list and every offer is reshaped. -/
def processFlightResults (flight_data : List OfferRaw) : ProcessedResults :=
  if flight_data = [] then
    { count := 0, flights := [] }
  else
    { count := flight_data.length
      flights := flight_data.map processOffer }

/-! ### JSON documents

`search_flights` serialises the processed dictionary with `json.dumps`.
The JSON tree it serialises is modelled explicitly, so properties of the
emitted document (such as its top-level `count` field) can be stated. -/

/-- A JSON value, covering the shapes `search_flights` emits. -/
inductive Json where
  | str (s : String)
  | num (n : Nat)
  | arr (xs : List Json)
  | obj (fields : List (String × Json))

/-- Look a key up in an association list of JSON object fields. -/
def lookupField : List (String × Json) → String → Option Json
  | [], _ => none
  | (k, v) :: rest, key => if k = key then some v else lookupField rest key

/-- Top-level field access on a JSON document. -/
def Json.getField (j : Json) (key : String) : Option Json :=
  match j with
  | .obj fields => lookupField fields key
  | _ => none

/-- JSON form of a reshaped departure/arrival block. -/
def endpointToJson (e : EndpointOut) : Json :=
  .obj [("iataCode", .str e.iataCode), ("terminal", .str e.terminal),
        ("at", .str e.at_)]

/-- JSON form of a reshaped segment. -/
def segmentToJson (s : SegmentOut) : Json :=
  .obj [("departure", endpointToJson s.departure),
        ("arrival", endpointToJson s.arrival),
        ("carrierCode", .str s.carrierCode),
        ("flightNumber", .str s.flightNumber),
        ("aircraft", .str s.aircraft),
        ("duration", .str s.duration)]

/-- JSON form of a reshaped itinerary. -/
def itineraryToJson (i : ItineraryOut) : Json :=
  .obj [("duration", .str i.duration),
        ("segments", .arr (i.segments.map segmentToJson))]

/-- JSON form of a reshaped flight entry. -/
def flightToJson (f : FlightOut) : Json :=
  .obj [("id", .str f.id),
        ("price", .obj [("total", .str f.price.total),
                        ("currency", .str f.price.currency)]),
        ("itineraries", .arr (f.itineraries.map itineraryToJson))]

/-- JSON form of the whole `_process_flight_results` dictionary, i.e. the
document `json.dumps` receives on the success path. -/
def processedToJson (r : ProcessedResults) : Json :=
  .obj [("count", .num r.count),
        ("flights", .arr (r.flights.map flightToJson))]

/-! ### Validation (`_validate_inputs`)

The Python helper raises `ValueError` with a message; the embedding returns
`some message` for the first failed check (raise order preserved) and
`none` when every check passes. -/

/-- The two airport-code checks, in source order: emptiness first, then
exact length 3. -/
def checkCodes (origin destination : String) : Option String :=
  if origin = "" ∨ destination = "" then
    some "Origin and destination airport codes are required"
  else if origin.length ≠ 3 ∨ destination.length ≠ 3 then
    some "Airport codes must be 3-letter IATA codes"
  else none

/-- The departure-date format check: only a non-empty departure date is
parsed, and a parse failure raises the format error. -/
def checkDeparture (departure_date : String) : Option String :=
  if departure_date ≠ "" ∧ parseDate departure_date = none then
    some "Departure date must be in YYYY-MM-DD format"
  else none

/-- The return-date checks.  A falsy (`None` or empty) return date is
skipped.  Otherwise it must parse, and when a departure date is present the
return date must not be strictly earlier (the inner `try/except` re-raises
the "must be after" error and maps every other `ValueError` to the format
error, so an unparseable departure date at this point would surface as the
return-date format message). -/
def checkReturn (departure_date : String) (return_date : Option String) :
    Option String :=
  match return_date with
  | none => none
  | some rd =>
    if rd = "" then none
    else
      match parseDate rd with
      | none => some "Return date must be in YYYY-MM-DD format"
      | some return_dt =>
        if departure_date = "" then none
        else
          match parseDate departure_date with
          | none => some "Return date must be in YYYY-MM-DD format"
          | some departure_dt =>
            if Date.lt return_dt departure_dt then
              some "Return date must be after departure date"
            else none

/-- The adults check (`adults` is an `int` in the embedding, so the
`isinstance` half of the Python test always holds). -/
def checkAdults (adults : Int) : Option String :=
  if adults < 1 then some "Number of adults must be a positive integer"
  else none

/-- `FlightToolkit._validate_inputs`: the checks run in source order and
the first failure is the `ValueError` message raised. -/
def validateInputs (origin destination departure_date : String)
    (return_date : Option String) (adults : Int) : Option String :=
  match checkCodes origin destination with
  | some e => some e
  | none =>
    match checkDeparture departure_date with
    | some e => some e
    | none =>
      match checkReturn departure_date return_date with
      | some e => some e
      | none => checkAdults adults

/-! ### Amadeus errors (`_parse_error_response`) -/

/-- `err['source']`, of which only the `parameter` key is read. -/
structure ErrSource where
  parameter : Option String
deriving DecidableEq

/-- One entry of the `errors` array of an Amadeus error body. -/
structure ErrorItem where
  title : Option String
  detail : Option String
  source : Option ErrSource
deriving DecidableEq

/-- A `ResponseError` as observed by `_parse_error_response`: `message` is
`str(error)`, and `errors` is the parsed `errors` array of the response
body when the error has a response with a parseable JSON body (`none`
covers a missing response, missing body, unparseable body, or a body
without an `errors` key). -/
structure AmadeusError where
  message : String
  errors : Option (List ErrorItem)

/-- Formatting of one error entry: title and detail with their defaults,
plus the failing parameter name when `source.parameter` is present. -/
def formatErrorItem (err : ErrorItem) : String :=
  (err.title.getD "Error") ++ ": " ++ (err.detail.getD "Unknown error") ++
    (match err.source with
     | some src =>
       match src.parameter with
       | some p => " (parameter: " ++ p ++ ")"
       | none => ""
     | none => "")

/-- `FlightToolkit._parse_error_response`: join the formatted entries of a
non-empty `errors` array with `"; "`, otherwise fall back to
`str(error)`. -/
def parseErrorResponse (error : AmadeusError) : String :=
  match error.errors with
  | some items =>
    if items = [] then error.message
    else String.intercalate "; " (items.map formatErrorItem)
  | none => error.message

/-! ### The tool itself (`search_flights`) -/

/-- The keyword arguments assembled for
`amadeus.shopping.flight_offers_search.get`; optional parameters that the
code leaves out of the dictionary are `none`. -/
structure Kwargs where
  originLocationCode : String
  destinationLocationCode : String
  departureDate : String
  adults : Int
  currencyCode : String
  max : Int
  returnDate : Option String
  nonStop : Option String
  travelClass : Option String
deriving DecidableEq

/-- Assembly of the request dictionary: `returnDate` only when the return
date is truthy, `nonStop` as the string `"true"` only when requested, and
`travelClass` only when it is truthy and a member of the fixed allowed
list. -/
def buildKwargs (origin destination departure_date : String)
    (return_date : Option String) (adults : Int) (currency : String)
    (max_results : Int) (non_stop : Bool) (travel_class : Option String) :
    Kwargs :=
  { originLocationCode := origin
    destinationLocationCode := destination
    departureDate := departure_date
    adults := adults
    currencyCode := currency
    max := max_results
    returnDate :=
      match return_date with
      | some rd => if rd = "" then none else some rd
      | none => none
    nonStop := if non_stop then some "true" else none
    travelClass :=
      match travel_class with
      | some tc =>
        if tc ≠ "" ∧ tc ∈ ["ECONOMY", "PREMIUM_ECONOMY", "BUSINESS", "FIRST"]
        then some tc else none
      | none => none }

/-- Behaviour of one call to the opaque Amadeus endpoint: a data payload
(`response.data`, possibly empty), a `ResponseError`, or any other
exception rendered by `str(error)`. -/
inductive RemoteOutcome where
  | data (offers : List OfferRaw)
  | responseError (e : AmadeusError)
  | exn (msg : String)

/-- What `search_flights` returns, split by provenance: the `json.dumps`
serialisation of a document on success, or a plain error string from one of
the three `except` arms.  Both are a single `str` at the Python boundary;
the constructor records which payload that string carries. -/
inductive ToolOutput where
  | json (doc : Json)
  | text (msg : String)

/-- Dispatch on the remote outcome: the body of the `try` after the API
call together with the `except ResponseError` and the final
`except Exception` arms. -/
def dispatchRemote (r : RemoteOutcome) : ToolOutput :=
  match r with
  | .data offers => .json (processedToJson (processFlightResults offers))
  | .responseError e => .text ("Error searching flights: " ++ parseErrorResponse e)
  | .exn msg => .text ("An unexpected error occurred: " ++ msg)

/-- `FlightToolkit.search_flights`.  `today` stands for `datetime.now()`
and `remote` for the opaque Amadeus call.  A `ValueError` from validation
is caught and rendered as `"Validation error: ..."`; otherwise an empty
departure date is replaced by tomorrow, the request dictionary is built,
and the remote outcome is rendered by `dispatchRemote`. -/
def searchFlights (today : Date) (origin destination departure_date : String)
    (return_date : Option String) (adults : Int) (currency : String)
    (max_results : Int) (non_stop : Bool) (travel_class : Option String)
    (remote : Kwargs → RemoteOutcome) : ToolOutput :=
  match validateInputs origin destination departure_date return_date adults with
  | some msg => .text ("Validation error: " ++ msg)
  | none =>
    let dep := if departure_date = "" then fmtDate (Date.succ today)
               else departure_date
    dispatchRemote (remote (buildKwargs origin destination dep return_date
      adults currency max_results non_stop travel_class))

end FlightToolkit

namespace TourMoreAI

/-- An apostrophe, spelled via its code point. -/
def apos : String := String.singleton (Char.ofNat 39)

/-- The `TravelInfo` response model (pydantic): every field is free text,
`special_requests` is optional. -/
structure TravelInfo where
  destination : String
  duration : String
  travel_dates : String
  purpose : String
  preferences : String
  special_requests : Option String
deriving DecidableEq

/-- The `FlightDetails` response model (pydantic).  All fields are plain
strings; the model declares no validator of any kind. -/
structure FlightDetails where
  origin : String
  destination : String
  departure_date : String
  return_date : Option String
  recommended_flights : String
  best_option : String
deriving DecidableEq

/-- The `DestinationInfo` response model (pydantic). -/
structure DestinationInfo where
  accommodations : String
  dining : String
  attractions : String
  transportation : String
  urls : Option (List String)
deriving DecidableEq

/-- The `content` attribute of a non-empty agent response: either a value
of the declared response model, or something else (e.g. plain text such as
a clarifying question) when structured output did not produce the model. -/
inductive Content (α : Type) where
  | typed (value : α)
  | raw (text : String)
deriving DecidableEq

/-- Behaviour of one `agent.run(...)` call: it raises, or it returns a
response object (possibly `None`) whose `content` attribute is possibly
`None`. -/
inductive RunOutcome (α : Type) where
  | exn (msg : String)
  | ret (response : Option (Option (Content α)))

/-- `TravelPlannerWorkflow.extract_travel_info`.  An exception from the
remote call returns `None`; a `None` response also returns `None`, because
the `isinstance` check dereferences `response.content` and the resulting
`AttributeError` is caught by the same `except`.  Any non-`None` response
has its `content` returned as-is — the emptiness and `isinstance` checks
only log warnings. -/
def extractTravelInfo (outcome : RunOutcome TravelInfo) :
    Option (Content TravelInfo) :=
  match outcome with
  | .exn _ => none
  | .ret none => none
  | .ret (some c) => c

/-- The flight-search query assembled from the extracted intent. -/
def flightSearchQuery (t : TravelInfo) : String :=
  "I need flights to " ++ t.destination ++ ". " ++
  "Departing around " ++ t.travel_dates ++ ". " ++
  "My trip is for " ++ t.duration ++ ". " ++
  "Preferences: " ++ t.preferences ++ ". " ++
  "Purpose: " ++ t.purpose ++ ". "

/-- `TravelPlannerWorkflow.search_flights` (the workflow step, not the
toolkit method).  Formatting the query dereferences the travel-info
fields, so a non-model `travel_info` raises inside the `try` and the step
returns `None`.  Otherwise the agent runs on the query and, as in
`extract_travel_info`, the response content is returned as-is, with an
exception or a `None` response yielding `None`. -/
def searchFlightsStep (travel_info : Content TravelInfo)
    (agent : String → RunOutcome FlightDetails) :
    Option (Content FlightDetails) :=
  match travel_info with
  | .raw _ => none
  | .typed t =>
    match agent (flightSearchQuery t) with
    | .exn _ => none
    | .ret none => none
    | .ret (some c) => c

/-- The destination-info query assembled from the extracted intent. -/
def destinationQuery (t : TravelInfo) : String :=
  "I" ++ apos ++ "m traveling to " ++ t.destination ++ " for " ++
  t.duration ++ ". " ++
  "Please find me good " ++ t.preferences ++ " accommodations, " ++
  "restaurants, tourist attractions, and public transportation options near city center. " ++
  "Purpose of visit: " ++ t.purpose ++ ". "

/-- The hard-coded `DestinationInfo` built in the `except` arm of
`get_destination_info` (`urls` keeps its pydantic default `None`). -/
def fallbackInfo : DestinationInfo :=
  { accommodations := "Could not retrieve accommodations due to an error. Please search for hotels in your destination area."
    dining := "Could not retrieve dining information due to an error. Please search for restaurants in your destination area."
    attractions := "Could not retrieve attractions due to an error. Please search for tourist spots in your destination area."
    transportation := "Could not retrieve transportation options."
    urls := none }

/-- `TravelPlannerWorkflow.get_destination_info`.  Every exception inside
the `try` — including the attribute errors from a non-model `travel_info`
or a `None` response — lands in the `except` arm, which returns the fixed
fallback record.  A non-`None` response has its `content` returned as-is,
so an empty (`None`) content is returned as `None`. -/
def getDestinationInfo (travel_info : Content TravelInfo)
    (agent : String → RunOutcome DestinationInfo) :
    Option (Content DestinationInfo) :=
  match travel_info with
  | .raw _ => some (.typed fallbackInfo)
  | .typed t =>
    match agent (destinationQuery t) with
    | .exn _ => some (.typed fallbackInfo)
    | .ret none => some (.typed fallbackInfo)
    | .ret (some c) => c

/-- Behaviour of the travel-plan agent call: its response carries free
text (no response model), possibly `None`. -/
inductive PlanOutcome where
  | exn (msg : String)
  | ret (response : Option (Option String))

/-- `TravelPlannerWorkflow.generate_travel_plan`.  Serialising the three
records calls `model_dump()` on each, so any non-model value raises inside
the `try` and the step returns `None`; otherwise the agent response content
is returned, with exceptions and `None` responses yielding `None`. -/
def generateTravelPlan (travel_info : Content TravelInfo)
    (flight_details : Content FlightDetails)
    (destination_info : Content DestinationInfo)
    (agent : PlanOutcome) : Option String :=
  match travel_info, flight_details, destination_info with
  | .typed _, .typed _, .typed _ =>
    match agent with
    | .exn _ => none
    | .ret none => none
    | .ret (some c) => c
  | _, _, _ => none

/-- Progress notification before step 1. -/
def mExtract : String := "Extracting travel details..."

/-- Final apology when no travel intent is available. -/
def apologyIntent : String :=
  "Sorry, I couldn" ++ apos ++ "t extract the necessary travel information. Please provide more details about your trip."

/-- Progress notification before step 2. -/
def mFlights : String := "Searching for flights..."

/-- Final apology when no flight details are available. -/
def apologyFlights : String :=
  "Could not find suitable flights for your travel dates. Please try different dates or destinations."

/-- Progress notification before step 3. -/
def mDest : String := "Finding accommodation, dining, and attractions..."

/-- Final apology when no destination information is available. -/
def apologyDest : String :=
  "Could not find detailed information about your destination. Let" ++ apos ++ "s continue with what we have."

/-- Progress notification before step 4. -/
def mPlan : String := "Generating your complete travel plan..."

/-- The partial report assembled in `run` when plan generation fails,
concatenated from the flight and destination records. -/
def fallbackReport (fd : FlightDetails) (di : DestinationInfo) : String :=
  "Could not generate a complete travel plan. Here" ++ apos ++ "s what I found so far:\n\n" ++
  "**Flight Options**: " ++ fd.recommended_flights ++ "\n\n" ++
  "**Best Flight**: " ++ fd.best_option ++ "\n\n" ++
  "**Accommodations**: " ++ di.accommodations ++ "\n\n" ++
  "**Dining Options**: " ++ di.dining ++ "\n\n" ++
  "**Attractions**: " ++ di.attractions ++ "\n\n" ++
  "**Local Transportation**: " ++ di.transportation

/-- Result of draining the `run` generator: the yielded contents in order,
or the contents yielded before an uncaught exception escapes the generator
(the partial-report branch dereferences record attributes outside any
`try`, so non-model step results crash there). -/
inductive WorkflowResult where
  | ok (out : List String)
  | crash (out : List String) (err : String)
deriving DecidableEq

/-- `TravelPlannerWorkflow.run`: the four steps in order, each preceded by
its progress notification; a `None` step result short-circuits to the
step-specific apology. -/
def runWorkflow (intentOutcome : RunOutcome TravelInfo)
    (flightAgent : String → RunOutcome FlightDetails)
    (destAgent : String → RunOutcome DestinationInfo)
    (planAgent : PlanOutcome) : WorkflowResult :=
  match extractTravelInfo intentOutcome with
  | none => .ok [mExtract, apologyIntent]
  | some travel_info =>
    match searchFlightsStep travel_info flightAgent with
    | none => .ok [mExtract, mFlights, apologyFlights]
    | some flight_details =>
      match getDestinationInfo travel_info destAgent with
      | none => .ok [mExtract, mFlights, mDest, apologyDest]
      | some destination_info =>
        match generateTravelPlan travel_info flight_details destination_info
            planAgent with
        | some plan => .ok [mExtract, mFlights, mDest, mPlan, plan]
        | none =>
          match flight_details, destination_info with
          | .typed fd, .typed di =>
            .ok [mExtract, mFlights, mDest, mPlan, fallbackReport fd di]
          | _, _ =>
            .crash [mExtract, mFlights, mDest, mPlan] "AttributeError"

end TourMoreAI

namespace FlightToolkit

/-! ### Concrete sample data used by witnesses and counterexamples -/

/-- A raw segment whose optional fields (departure terminal, aircraft,
duration) are all missing, with an arrival terminal present. -/
def segEx : SegmentRaw :=
  { departure := { iataCode := "JFK", terminal := none, at_ := "2025-05-10T08:00:00" }
    arrival := { iataCode := "LHR", terminal := some "5", at_ := "2025-05-10T20:00:00" }
    carrierCode := "BA"
    number := "112"
    aircraft := none
    duration := none }

/-- A raw offer containing `segEx` in a single itinerary with no
itinerary-level duration. -/
def offerEx : OfferRaw :=
  { id := "1"
    price := { total := "450.00", currency := "INR" }
    itineraries := [{ duration := none, segments := [segEx] }] }

/-- An Amadeus error whose body names a failing parameter. -/
def errEx : AmadeusError :=
  { message := "[400]"
    errors := some [{ title := some "INVALID DATE"
                      detail := some "Date/Time is in the past"
                      source := some { parameter := some "departureDate" } }] }

end FlightToolkit

namespace TourMoreAI

/-- A well-typed extracted travel intent. -/
def tiEx : TravelInfo :=
  { destination := "London"
    duration := "5 days"
    travel_dates := "2025-05-10"
    purpose := "tourism"
    preferences := "budget"
    special_requests := none }

/-- A well-typed flight-details record. -/
def fdEx : FlightDetails :=
  { origin := "JFK"
    destination := "LHR"
    departure_date := "2025-05-10"
    return_date := none
    recommended_flights := "BA 112 departing 08:00, 450.00 INR"
    best_option := "BA 112" }

/-- A well-typed flight-details record whose departure date lies far in
the past. -/
def fdPast : FlightDetails :=
  { origin := "JFK"
    destination := "LHR"
    departure_date := "2000-01-01"
    return_date := none
    recommended_flights := "BA 112 departing 08:00, 450.00 INR"
    best_option := "BA 112" }

end TourMoreAI

namespace FlightToolkit

/-! ### Supporting lemmas -/

/-- The empty string is not a valid `%Y-%m-%d` date. -/
theorem parseDate_empty : parseDate "" = none := by decide

/-- A string that parses as a date is non-empty. -/
theorem parseDate_ne_empty {s : String} {d : Date}
    (h : parseDate s = some d) : s ≠ "" := by
  intro hs
  subst hs
  rw [parseDate_empty] at h
  exact Option.noConfusion h

/-- A string of length 3 is non-empty. -/
theorem length_three_ne_empty {s : String} (h : s.length = 3) : s ≠ "" := by
  intro hs
  subst hs
  exact absurd h (by decide)

/-- Valid 3-letter airport codes pass both airport-code checks. -/
theorem checkCodes_ok {o d : String} (ho : o.length = 3)
    (hd : d.length = 3) : checkCodes o d = none := by
  have h1 : ¬(o = "" ∨ d = "") := by
    rintro (h | h)
    · exact length_three_ne_empty ho h
    · exact length_three_ne_empty hd h
  have h2 : ¬(o.length ≠ 3 ∨ d.length ≠ 3) := by simp [ho, hd]
  simp [checkCodes, h1, h2]

/-- A departure date that parses passes the departure-date check. -/
theorem checkDeparture_of_parse {s : String} {d : Date}
    (h : parseDate s = some d) : checkDeparture s = none := by
  simp [checkDeparture, h]

/-- An empty departure date is skipped by the departure-date check. -/
theorem checkDeparture_empty : checkDeparture "" = none := by
  simp [checkDeparture]

/-- `_validate_inputs` succeeds when each of its checks succeeds. -/
theorem validateInputs_none (o d dep : String) (rd : Option String) (a : Int)
    (h1 : checkCodes o d = none) (h2 : checkDeparture dep = none)
    (h3 : checkReturn dep rd = none) (h4 : checkAdults a = none) :
    validateInputs o d dep rd a = none := by
  simp [validateInputs, h1, h2, h3, h4]

/-- `_validate_inputs` raises the return-date error when the earlier
checks pass and the return-date check fails. -/
theorem validateInputs_return_err (o d dep : String) (rd : Option String)
    (a : Int) (msg : String) (h1 : checkCodes o d = none)
    (h2 : checkDeparture dep = none) (h3 : checkReturn dep rd = some msg) :
    validateInputs o d dep rd a = some msg := by
  simp [validateInputs, h1, h2, h3]

/-- The count recorded by `_process_flight_results` is the length of its
flights list, also when the raw data is empty. -/
theorem processFlightResults_count (l : List OfferRaw) :
    (processFlightResults l).count = (processFlightResults l).flights.length := by
  cases l with
  | nil => rfl
  | cons x xs => simp [processFlightResults]

/-! ### Claims about `search_flights` -/

/-- C1: for 3-letter origin and destination codes, a departure date in
valid `YYYY-MM-DD` format and any non-error aggregator response (offers,
possibly the empty list), `search_flights` returns the `json.dumps`
serialisation of the reshaped document, and that document's top-level
`count` field equals the length of its `flights` list. -/
theorem search_flights_count_eq_length
    (today : Date) (origin destination departure_date currency : String)
    (max_results : Int) (non_stop : Bool) (travel_class : Option String)
    (offers : List OfferRaw) (dd : Date)
    (ho : origin.length = 3) (hd : destination.length = 3)
    (hdep : parseDate departure_date = some dd) :
    searchFlights today origin destination departure_date none 1 currency
        max_results non_stop travel_class (fun _ => .data offers)
      = .json (processedToJson (processFlightResults offers))
    ∧ (processedToJson (processFlightResults offers)).getField "count"
      = some (.num (processFlightResults offers).flights.length) := by
  have hv : validateInputs origin destination departure_date none 1 = none :=
    validateInputs_none _ _ _ _ _ (checkCodes_ok ho hd)
      (checkDeparture_of_parse hdep) rfl (by decide)
  constructor
  · simp [searchFlights, hv, dispatchRemote]
  · simp [processedToJson, Json.getField, lookupField, processFlightResults_count]

/-- Witness for C1 at a concrete call with one offer. -/
theorem search_flights_count_eq_length_witness :
    searchFlights ⟨2025, 1, 1⟩ "JFK" "LHR" "2025-05-10" none 1 "INR" 5 false
        none (fun _ => .data [offerEx])
      = .json (processedToJson (processFlightResults [offerEx]))
    ∧ (processedToJson (processFlightResults [offerEx])).getField "count"
      = some (.num (processFlightResults [offerEx]).flights.length) :=
  search_flights_count_eq_length ⟨2025, 1, 1⟩ "JFK" "LHR" "2025-05-10" "INR"
    5 false none [offerEx] ⟨2025, 5, 10⟩ (by decide) (by decide) (by decide)

/-- C2: `search_flights` is a total function into strings (it never
raises): every call yields either the serialised JSON document or an error
string; a `ResponseError` from the aggregator yields the
`"Error searching flights: ..."` string built by `_parse_error_response`,
which joins the body's error entries and appends the failing parameter
name when the remote names one; any other exception yields the
`"An unexpected error occurred: ..."` string. -/
theorem search_flights_total_and_error_strings :
    (∀ (today : Date) (origin destination departure_date currency : String)
        (return_date : Option String) (adults max_results : Int)
        (non_stop : Bool) (travel_class : Option String)
        (remote : Kwargs → RemoteOutcome),
      (∃ doc, searchFlights today origin destination departure_date
          return_date adults currency max_results non_stop travel_class remote
        = .json doc)
      ∨ (∃ s, searchFlights today origin destination departure_date
          return_date adults currency max_results non_stop travel_class remote
        = .text s))
    ∧ (∀ (today : Date) (origin destination departure_date currency : String)
        (return_date : Option String) (adults max_results : Int)
        (non_stop : Bool) (travel_class : Option String) (e : AmadeusError),
      validateInputs origin destination departure_date return_date adults = none →
      searchFlights today origin destination departure_date return_date
          adults currency max_results non_stop travel_class
          (fun _ => .responseError e)
        = .text ("Error searching flights: " ++ parseErrorResponse e))
    ∧ (∀ (e : AmadeusError) (items : List ErrorItem),
      e.errors = some items → items ≠ [] →
      parseErrorResponse e = String.intercalate "; " (items.map formatErrorItem))
    ∧ (∀ (err : ErrorItem) (src : ErrSource) (p : String),
      err.source = some src → src.parameter = some p →
      formatErrorItem err = (err.title.getD "Error") ++ ": " ++
        (err.detail.getD "Unknown error") ++ (" (parameter: " ++ p ++ ")"))
    ∧ (∀ (today : Date) (origin destination departure_date currency : String)
        (return_date : Option String) (adults max_results : Int)
        (non_stop : Bool) (travel_class : Option String) (msg : String),
      validateInputs origin destination departure_date return_date adults = none →
      searchFlights today origin destination departure_date return_date
          adults currency max_results non_stop travel_class (fun _ => .exn msg)
        = .text ("An unexpected error occurred: " ++ msg)) := by
  refine ⟨?_, ?_, ?_, ?_, ?_⟩
  · intro today o d dep cur rd a mx ns tc remote
    cases h : searchFlights today o d dep rd a cur mx ns tc remote with
    | json doc => exact Or.inl ⟨doc, rfl⟩
    | text s => exact Or.inr ⟨s, rfl⟩
  · intro today o d dep cur rd a mx ns tc e hv
    simp [searchFlights, hv, dispatchRemote]
  · intro e items h1 h2
    simp [parseErrorResponse, h1, h2]
  · intro err src p h1 h2
    simp [formatErrorItem, h1, h2]
  · intro today o d dep cur rd a mx ns tc msg hv
    simp [searchFlights, hv, dispatchRemote]

/-- Witness for C2: a concrete remote error whose body names the failing
`departureDate` parameter. -/
theorem search_flights_total_and_error_strings_witness :
    searchFlights ⟨2025, 1, 1⟩ "JFK" "LHR" "2025-12-01" none 1 "INR" 5 false
        none (fun _ => .responseError errEx)
      = .text ("Error searching flights: " ++ parseErrorResponse errEx) :=
  search_flights_total_and_error_strings.2.1 ⟨2025, 1, 1⟩ "JFK" "LHR"
    "2025-12-01" "INR" none 1 5 false none errEx (by decide)

/-- C3: whenever the origin or destination has length other than 3,
`search_flights` returns the emptiness validation message when a code is
empty and the 3-letter-IATA-code message otherwise, and the result does
not depend on the remote service (no remote call is observable). -/
theorem search_flights_bad_airport_codes
    (today : Date) (origin destination departure_date currency : String)
    (return_date : Option String) (adults max_results : Int) (non_stop : Bool)
    (travel_class : Option String) (remote remote₂ : Kwargs → RemoteOutcome)
    (h : origin.length ≠ 3 ∨ destination.length ≠ 3) :
    searchFlights today origin destination departure_date return_date adults
        currency max_results non_stop travel_class remote
      = .text ("Validation error: " ++
          (if origin = "" ∨ destination = "" then
            "Origin and destination airport codes are required"
          else "Airport codes must be 3-letter IATA codes"))
    ∧ searchFlights today origin destination departure_date return_date adults
        currency max_results non_stop travel_class remote
      = searchFlights today origin destination departure_date return_date
          adults currency max_results non_stop travel_class remote₂ := by
  have hc : checkCodes origin destination
      = some (if origin = "" ∨ destination = "" then
          "Origin and destination airport codes are required"
        else "Airport codes must be 3-letter IATA codes") := by
    by_cases hod : origin = "" ∨ destination = ""
    · unfold checkCodes
      rw [if_pos hod, if_pos hod]
    · unfold checkCodes
      rw [if_neg hod, if_pos h, if_neg hod]
  constructor <;> simp [searchFlights, validateInputs, hc]

/-- Witness for C3: a two-letter origin code. -/
theorem search_flights_bad_airport_codes_witness :
    searchFlights ⟨2025, 1, 1⟩ "JF" "LHR" "2025-05-10" none 1 "INR" 5 false
        none (fun _ => .exn "boom")
      = .text ("Validation error: " ++
          (if ("JF" : String) = "" ∨ ("LHR" : String) = "" then
            "Origin and destination airport codes are required"
          else "Airport codes must be 3-letter IATA codes"))
    ∧ searchFlights ⟨2025, 1, 1⟩ "JF" "LHR" "2025-05-10" none 1 "INR" 5 false
        none (fun _ => .exn "boom")
      = searchFlights ⟨2025, 1, 1⟩ "JF" "LHR" "2025-05-10" none 1 "INR" 5
          false none (fun _ => .data []) :=
  search_flights_bad_airport_codes ⟨2025, 1, 1⟩ "JF" "LHR" "2025-05-10" "INR"
    none 1 5 false none (fun _ => .exn "boom") (fun _ => .data [])
    (by decide)

/-- C4 counterexample: with an empty origin code, a return date strictly
before the departure date yields the airport-code validation message, not
the "Return date must be after departure date" message the claim
promises for every such call. -/
theorem return_date_before_departure_shadowed_cex :
    searchFlights ⟨2025, 1, 1⟩ "" "LHR" "2025-05-10" (some "2025-05-01") 1
        "INR" 5 false none (fun _ => .exn "unreachable")
      = .text ("Validation error: " ++
          "Origin and destination airport codes are required")
    ∧ "Origin and destination airport codes are required"
      ≠ "Return date must be after departure date" :=
  ⟨rfl, by decide⟩

/-- C4 (amended): when the airport codes pass validation (earlier checks
take precedence), a parseable return date strictly before a non-empty,
validly formatted departure date makes `search_flights` return the
"Return date must be after departure date" validation error, independent
of the remote service (no remote call is observable). -/
theorem search_flights_return_before_departure
    (today : Date)
    (origin destination departure_date return_s currency : String)
    (adults max_results : Int) (non_stop : Bool) (travel_class : Option String)
    (remote remote₂ : Kwargs → RemoteOutcome) (ddt rdt : Date)
    (ho : origin.length = 3) (hd : destination.length = 3)
    (hdp : parseDate departure_date = some ddt)
    (hrp : parseDate return_s = some rdt)
    (hlt : Date.lt rdt ddt = true) :
    searchFlights today origin destination departure_date (some return_s)
        adults currency max_results non_stop travel_class remote
      = .text ("Validation error: " ++ "Return date must be after departure date")
    ∧ searchFlights today origin destination departure_date (some return_s)
        adults currency max_results non_stop travel_class remote
      = searchFlights today origin destination departure_date (some return_s)
          adults currency max_results non_stop travel_class remote₂ := by
  have hre : return_s ≠ "" := parseDate_ne_empty hrp
  have hde : departure_date ≠ "" := parseDate_ne_empty hdp
  have hr : checkReturn departure_date (some return_s)
      = some "Return date must be after departure date" := by
    simp [checkReturn, hre, hrp, hde, hdp, hlt]
  have hv : validateInputs origin destination departure_date (some return_s)
      adults = some "Return date must be after departure date" :=
    validateInputs_return_err _ _ _ _ _ _ (checkCodes_ok ho hd)
      (checkDeparture_of_parse hdp) hr
  constructor <;> simp [searchFlights, hv]

/-- Witness for C4 (amended) at a concrete call. -/
theorem search_flights_return_before_departure_witness :
    searchFlights ⟨2025, 1, 1⟩ "JFK" "LHR" "2025-05-10" (some "2025-05-01") 1
        "INR" 5 false none (fun _ => .exn "boom")
      = .text ("Validation error: " ++ "Return date must be after departure date")
    ∧ searchFlights ⟨2025, 1, 1⟩ "JFK" "LHR" "2025-05-10" (some "2025-05-01")
        1 "INR" 5 false none (fun _ => .exn "boom")
      = searchFlights ⟨2025, 1, 1⟩ "JFK" "LHR" "2025-05-10"
          (some "2025-05-01") 1 "INR" 5 false none (fun _ => .data []) :=
  search_flights_return_before_departure ⟨2025, 1, 1⟩ "JFK" "LHR" "2025-05-10"
    "2025-05-01" "INR" 1 5 false none (fun _ => .exn "boom")
    (fun _ => .data []) ⟨2025, 5, 10⟩ ⟨2025, 5, 1⟩ (by decide) (by decide)
    (by decide) (by decide) (by decide)

/-- C5: with valid 3-letter codes and an empty departure date, validation
passes (the empty date triggers no format error) and the remote request is
made with `departureDate` equal to tomorrow relative to the invocation
date. -/
theorem search_flights_empty_date_tomorrow
    (today : Date) (origin destination currency : String) (max_results : Int)
    (non_stop : Bool) (travel_class : Option String)
    (remote : Kwargs → RemoteOutcome)
    (ho : origin.length = 3) (hd : destination.length = 3) :
    searchFlights today origin destination "" none 1 currency max_results
        non_stop travel_class remote
      = dispatchRemote (remote (buildKwargs origin destination
          (fmtDate (Date.succ today)) none 1 currency max_results non_stop
          travel_class))
    ∧ (buildKwargs origin destination (fmtDate (Date.succ today)) none 1
        currency max_results non_stop travel_class).departureDate
      = fmtDate (Date.succ today) := by
  have hv : validateInputs origin destination "" none 1 = none :=
    validateInputs_none _ _ _ _ _ (checkCodes_ok ho hd) checkDeparture_empty
      rfl (by decide)
  exact ⟨by simp [searchFlights, hv], rfl⟩

/-- Witness for C5 on the last day of 2025: the remote echoes the
requested departure date back, showing the rollover to `2026-01-01`. -/
theorem search_flights_empty_date_tomorrow_witness :
    searchFlights ⟨2025, 12, 31⟩ "JFK" "LHR" "" none 1 "INR" 5 false none
        (fun k => .exn k.departureDate)
      = dispatchRemote ((fun k => RemoteOutcome.exn k.departureDate)
          (buildKwargs "JFK" "LHR" (fmtDate (Date.succ ⟨2025, 12, 31⟩)) none 1
            "INR" 5 false none))
    ∧ (buildKwargs "JFK" "LHR" (fmtDate (Date.succ ⟨2025, 12, 31⟩)) none 1
        "INR" 5 false none).departureDate
      = fmtDate (Date.succ ⟨2025, 12, 31⟩) :=
  search_flights_empty_date_tomorrow ⟨2025, 12, 31⟩ "JFK" "LHR" "INR" 5 false
    none (fun k => .exn k.departureDate) (by decide) (by decide)

/-- C6: in the reshaping done by `_process_flight_results`, every missing
optional field — departure/arrival terminal, aircraft code (whether the
`aircraft` dictionary or only its `code` key is absent), segment duration,
itinerary duration — is rendered as the literal string `"N/A"`, present
optional fields are copied, all mandatory fields (id, price total and
currency, iataCode, at, carrierCode, flight number) are copied through,
and every raw offer, itinerary and segment is reshaped pointwise. -/
theorem process_results_na_defaults :
    (∀ seg : SegmentRaw,
      (seg.departure.terminal = none →
        (processSegment seg).departure.terminal = "N/A")
      ∧ (∀ t, seg.departure.terminal = some t →
        (processSegment seg).departure.terminal = t)
      ∧ (seg.arrival.terminal = none →
        (processSegment seg).arrival.terminal = "N/A")
      ∧ (∀ t, seg.arrival.terminal = some t →
        (processSegment seg).arrival.terminal = t)
      ∧ (seg.aircraft = none → (processSegment seg).aircraft = "N/A")
      ∧ (∀ a, seg.aircraft = some a → a.code = none →
        (processSegment seg).aircraft = "N/A")
      ∧ (∀ a c, seg.aircraft = some a → a.code = some c →
        (processSegment seg).aircraft = c)
      ∧ (seg.duration = none → (processSegment seg).duration = "N/A")
      ∧ (∀ u, seg.duration = some u → (processSegment seg).duration = u)
      ∧ (processSegment seg).departure.iataCode = seg.departure.iataCode
      ∧ (processSegment seg).departure.at_ = seg.departure.at_
      ∧ (processSegment seg).arrival.iataCode = seg.arrival.iataCode
      ∧ (processSegment seg).arrival.at_ = seg.arrival.at_
      ∧ (processSegment seg).carrierCode = seg.carrierCode
      ∧ (processSegment seg).flightNumber = seg.number)
    ∧ (∀ itin : ItineraryRaw,
      (itin.duration = none → (processItinerary itin).duration = "N/A")
      ∧ (∀ u, itin.duration = some u → (processItinerary itin).duration = u)
      ∧ (processItinerary itin).segments = itin.segments.map processSegment)
    ∧ (∀ offer : OfferRaw,
      (processOffer offer).id = offer.id
      ∧ (processOffer offer).price.total = offer.price.total
      ∧ (processOffer offer).price.currency = offer.price.currency
      ∧ (processOffer offer).itineraries
        = offer.itineraries.map processItinerary)
    ∧ (∀ flight_data : List OfferRaw,
      (processFlightResults flight_data).flights
        = flight_data.map processOffer) := by
  refine ⟨fun seg => ?_, fun itin => ?_, fun offer => ?_, fun l => ?_⟩
  · exact ⟨fun h => by simp [processSegment, h],
      fun t h => by simp [processSegment, h],
      fun h => by simp [processSegment, h],
      fun t h => by simp [processSegment, h],
      fun h => by simp [processSegment, h],
      fun a h hc => by simp [processSegment, h, hc],
      fun a c h hc => by simp [processSegment, h, hc],
      fun h => by simp [processSegment, h],
      fun u h => by simp [processSegment, h],
      rfl, rfl, rfl, rfl, rfl, rfl⟩
  · exact ⟨fun h => by simp [processItinerary, h],
      fun u h => by simp [processItinerary, h], rfl⟩
  · exact ⟨rfl, rfl, rfl, rfl⟩
  · cases l with
    | nil => rfl
    | cons x xs => simp [processFlightResults]

/-- Witness for C6 on a segment with missing terminal, aircraft and
duration. -/
theorem process_results_na_defaults_witness :
    segEx.departure.terminal = none
    ∧ (processSegment segEx).departure.terminal = "N/A"
    ∧ segEx.aircraft = none
    ∧ (processSegment segEx).aircraft = "N/A"
    ∧ segEx.duration = none
    ∧ (processSegment segEx).duration = "N/A" := by
  obtain ⟨hseg, -, -, -⟩ := process_results_na_defaults
  obtain ⟨h1, -, -, -, h5, -, -, h8, -⟩ := hseg segEx
  exact ⟨rfl, h1 rfl, rfl, h5 rfl, rfl, h8 rfl⟩

/-- C10: a non-empty travel class outside the fixed allowed set is
silently dropped from the request, so the call behaves exactly like the
same call with no travel class at all. -/
theorem invalid_travel_class_omitted
    (today : Date) (origin destination departure_date currency : String)
    (return_date : Option String) (adults max_results : Int) (non_stop : Bool)
    (tc : String) (remote : Kwargs → RemoteOutcome)
    (_hne : tc ≠ "")
    (hmem : tc ∉ (["ECONOMY", "PREMIUM_ECONOMY", "BUSINESS", "FIRST"] : List String)) :
    searchFlights today origin destination departure_date return_date adults
        currency max_results non_stop (some tc) remote
      = searchFlights today origin destination departure_date return_date
          adults currency max_results non_stop none remote := by
  have hb : ∀ dep, buildKwargs origin destination dep return_date adults
      currency max_results non_stop (some tc)
      = buildKwargs origin destination dep return_date adults currency
        max_results non_stop none := by
    intro dep
    simp [buildKwargs, hmem]
  unfold searchFlights
  cases hv : validateInputs origin destination departure_date return_date
      adults with
  | some msg => rfl
  | none => simp only [hb]

/-- Witness for C10 with the invalid class `"LUXURY"`. -/
theorem invalid_travel_class_omitted_witness :
    searchFlights ⟨2025, 1, 1⟩ "JFK" "LHR" "2025-05-10" none 1 "INR" 5 false
        (some "LUXURY") (fun k => .exn (k.travelClass.getD "absent"))
      = searchFlights ⟨2025, 1, 1⟩ "JFK" "LHR" "2025-05-10" none 1 "INR" 5
          false none (fun k => .exn (k.travelClass.getD "absent")) :=
  invalid_travel_class_omitted ⟨2025, 1, 1⟩ "JFK" "LHR" "2025-05-10" "INR"
    none 1 5 false "LUXURY" (fun k => .exn (k.travelClass.getD "absent"))
    (by decide) (by decide)

end FlightToolkit

namespace TourMoreAI

/-! ### Claims about the workflow -/

/-- C7 counterexample: a non-`None` response whose content is not a
well-typed `TravelInfo` (here plain clarifying text) is returned as-is by
`extract_travel_info`, so the pipeline advances to the flight-search step:
the run emits the flight progress notification and ends with the flight
apology, not the missing-travel-details apology. -/
theorem malformed_intent_advances_pipeline_cex :
    runWorkflow (.ret (some (some (.raw "Which city would you like to visit?"))))
        (fun _ => .ret none) (fun _ => .ret none) (.ret none)
      = .ok [mExtract, mFlights, apologyFlights]
    ∧ apologyFlights ≠ apologyIntent
    ∧ mFlights ≠ apologyIntent :=
  ⟨rfl, by decide, by decide⟩

/-- C7 (amended): when the intent agent raises, or returns no response, or
returns a response with empty content, the step yields no intent, the run
ends immediately with exactly the missing-travel-details apology, and no
flight, destination or itinerary step executes (no further notification is
emitted). -/
theorem no_intent_halts_with_apology :
    (∀ (msg : String) (fa : String → RunOutcome FlightDetails)
        (da : String → RunOutcome DestinationInfo) (pa : PlanOutcome),
      runWorkflow (.exn msg) fa da pa = .ok [mExtract, apologyIntent])
    ∧ (∀ (fa : String → RunOutcome FlightDetails)
        (da : String → RunOutcome DestinationInfo) (pa : PlanOutcome),
      runWorkflow (.ret none) fa da pa = .ok [mExtract, apologyIntent])
    ∧ (∀ (fa : String → RunOutcome FlightDetails)
        (da : String → RunOutcome DestinationInfo) (pa : PlanOutcome),
      runWorkflow (.ret (some none)) fa da pa = .ok [mExtract, apologyIntent]) :=
  ⟨fun _ _ _ _ => rfl, fun _ _ _ => rfl, fun _ _ _ => rfl⟩

/-- C8 counterexample: a destination-agent response with empty (`None`)
content makes `get_destination_info` return no record at all, and the
pipeline halts with the destination apology before the itinerary step —
the adapter does fail outward in this case. -/
theorem empty_destination_content_halts_cex :
    getDestinationInfo (.typed tiEx) (fun _ => .ret (some none)) = none
    ∧ runWorkflow (.ret (some (some (.typed tiEx))))
        (fun _ => .ret (some (some (.typed fdEx))))
        (fun _ => .ret (some none)) (.ret none)
      = .ok [mExtract, mFlights, mDest, apologyDest]
    ∧ apologyDest ≠ mPlan :=
  ⟨rfl, rfl, by decide⟩

/-- C8 (amended): when the destination-info lookup raises,
`get_destination_info` returns the fixed placeholder record with all four
text fields populated by the literal apology strings, and such an
exception failure never halts the pipeline: the run still reaches the
itinerary step.  (A response with empty content, by contrast, yields no
record and halts the run — see the counterexample.) -/
theorem destination_exception_fallback :
    (∀ (t : TravelInfo) (msg : String),
      getDestinationInfo (.typed t) (fun _ => .exn msg)
        = some (.typed fallbackInfo))
    ∧ fallbackInfo.accommodations
      = "Could not retrieve accommodations due to an error. Please search for hotels in your destination area."
    ∧ fallbackInfo.dining
      = "Could not retrieve dining information due to an error. Please search for restaurants in your destination area."
    ∧ fallbackInfo.attractions
      = "Could not retrieve attractions due to an error. Please search for tourist spots in your destination area."
    ∧ fallbackInfo.transportation = "Could not retrieve transportation options."
    ∧ (∀ (t : TravelInfo) (fd : FlightDetails) (msg : String)
        (pa : PlanOutcome),
      ∃ rest, runWorkflow (.ret (some (some (.typed t))))
          (fun _ => .ret (some (some (.typed fd))))
          (fun _ => .exn msg) pa
        = .ok ([mExtract, mFlights, mDest, mPlan] ++ rest)) := by
  refine ⟨fun t msg => rfl, rfl, rfl, rfl, rfl, fun t fd msg pa => ?_⟩
  cases pa with
  | exn m => exact ⟨[fallbackReport fd fallbackInfo], rfl⟩
  | ret r =>
    cases r with
    | none => exact ⟨[fallbackReport fd fallbackInfo], rfl⟩
    | some c =>
      cases c with
      | none => exact ⟨[fallbackReport fd fallbackInfo], rfl⟩
      | some plan => exact ⟨[plan], rfl⟩

/-- C9 counterexample: the flight-search step accepts and returns a
well-typed `FlightDetails` record whose departure date (`2000-01-01`) is
strictly before the invocation date (here `2025-10-12`; any invocation
date after 2000-01-01 witnesses the violation), so the record produced by
the adapter does precede "today". -/
theorem past_departure_date_record_cex :
    searchFlightsStep (.typed tiEx)
        (fun _ => .ret (some (some (.typed fdPast))))
      = some (.typed fdPast)
    ∧ FlightToolkit.parseDate fdPast.departure_date = some ⟨2000, 1, 1⟩
    ∧ FlightToolkit.Date.lt ⟨2000, 1, 1⟩ ⟨2025, 10, 12⟩ = true :=
  ⟨rfl, by decide, by decide⟩

/-- C9 (amended): the Flight Search Adapter enforces no relation between
`departure_date` and the current date — it returns whatever record the
remote agent produces, unchanged; the not-before-today constraint exists
only in the agent's natural-language instructions. -/
theorem flight_step_no_departure_date_check :
    ∀ (t : TravelInfo) (fd : FlightDetails),
      searchFlightsStep (.typed t) (fun _ => .ret (some (some (.typed fd))))
        = some (.typed fd) :=
  fun _ _ => rfl

end TourMoreAI
